import Mathlib

/-!
Verification of the player-tracking and camera-control subsystem of the
Minecraft-Youtube-Follower repository.

Two revisions of the bot module are embedded:
* namespace `SpectatorBot` — `src/bot/spectator-bot.js` (current revision);
* namespace `RevB` — the later of the two revisions contained in
  `src/unnamed/part_002` (the file after the document separator: the revision
  with `updateCamera`, `startShowcaseTour`, `writeOverlay` and the
  `lastCommandTime` rate limiter).

Modelling conventions:
* timestamps (`Date.now()`) are integers (milliseconds);
* block-world numerics (`parseFloat` values, coordinates) are rationals;
* the timer handles (`setInterval` results) are booleans recording whether the
  corresponding timer is live;
* side effects (`bot.chat`, `clearInterval`, `setInterval`, overlay writes) are
  recorded as explicit action lists in the order the source performs them.
-/

namespace SpectatorBot

/-- Environment of a tracked player as seen by `calculateAdaptiveDistance`
(spectator-bot.js lines 426-474): `entity` models truthiness of
`player.entity`; `isSolid d` models, for offset `d`, whether
`bot.blockAt(pos.offset(dx, dy, dz))` returns a block whose `boundingBox`
is not `'empty'` (a thrown/unloaded lookup is `false`, matching the
try/catch that ignores such samples). -/
structure PlayerEnv where
  entity : Bool
  isSolid : Int × Int × Int → Bool

/-- MIN_FOLLOW_DISTANCE (spectator-bot.js line 50). -/
def MIN_FOLLOW_DISTANCE : ℚ := 4

/-- MAX_FOLLOW_DISTANCE (spectator-bot.js line 51). -/
def MAX_FOLLOW_DISTANCE : ℚ := 15

/-- The 25 sample offsets of `calculateAdaptiveDistance`
(spectator-bot.js lines 437-452). -/
def offsets : List (Int × Int × Int) :=
  [(0, 0, -3), (0, 0, -5), (0, 0, -8),
   (0, 2, -3), (0, 2, -5), (0, 2, -8),
   (-3, 0, 0), (3, 0, 0), (-3, 2, 0), (3, 2, 0),
   (0, 3, 0), (0, 5, 0),
   (-2, 2, -2), (2, 2, -2), (-2, 2, 2), (2, 2, 2),
   (0, -1, 0), (0, 4, 0),
   (-1, 1, -4), (1, 1, -4), (-2, 1, -6), (2, 1, -6),
   (0, 1, -10), (-2, 2, -8), (2, 2, -8)]

/-- Number of solid samples around the player (the `solidBlockCount`
accumulation loop, spectator-bot.js lines 454-463). -/
def solidBlockCount (p : PlayerEnv) : ℕ :=
  (offsets.filter (fun d => p.isSolid d)).length

/-- The enclosure score `solidRatio = solidBlockCount / offsets.length`
(spectator-bot.js line 466). -/
def solidFrac (p : PlayerEnv) : ℚ :=
  (solidBlockCount p : ℚ) / (offsets.length : ℚ)

/-- calculateAdaptiveDistance (spectator-bot.js lines 426-474): returns
`BASE_FOLLOW_DISTANCE` (the `base` argument) unchanged when
`player.entity` is falsy; otherwise interpolates between the max and min
follow distances by the enclosure score and clamps to
`[MIN_FOLLOW_DISTANCE, MAX_FOLLOW_DISTANCE]`
(`Math.max(MIN, Math.min(MAX, distance))`). -/
def calculateAdaptiveDistance (base : ℚ) (p : PlayerEnv) : ℚ :=
  if !p.entity then base
  else
    let distance :=
      MAX_FOLLOW_DISTANCE - solidFrac p * (MAX_FOLLOW_DISTANCE - MIN_FOLLOW_DISTANCE)
    max MIN_FOLLOW_DISTANCE (min MAX_FOLLOW_DISTANCE distance)

/-- Camera height used by `updatePosition` (spectator-bot.js line 406):
`const height = BASE_FOLLOW_HEIGHT;` — the configured base height is used
as-is; no clamping and no height bounds exist anywhere in the source. -/
def heightUsed (baseHeight : ℚ) : ℚ := baseHeight

/-- Modelled from the spec's words, for comparison with
`calculateAdaptiveDistance` (claim about the distance derivation): "Final
distance = base distance ... scaled down by up to 50% proportional to
enclosure score, then clamped to [min, max] configured bounds." -/
def specScaledDistance (base frac : ℚ) : ℚ :=
  max MIN_FOLLOW_DISTANCE (min MAX_FOLLOW_DISTANCE (base * (1 - frac / 2)))

/-- A fully open environment: resolved entity, no solid samples. -/
def openEnv : PlayerEnv := ⟨true, fun _ => false⟩

/-- A fully enclosed environment: resolved entity, every sample solid. -/
def fullEnv : PlayerEnv := ⟨true, fun _ => true⟩

/-- An environment whose entity is unresolved (`player.entity` falsy). -/
def unresolvedEnv : PlayerEnv := ⟨false, fun _ => false⟩

/-- An environment in which exactly the first 15 of the 25 sample offsets
are solid, so the enclosure score is 15/25 = 3/5. -/
def fifteenSolidEnv : PlayerEnv := ⟨true, fun d => (offsets.take 15).contains d⟩

/-- Side effects performed by the tracking/follow/showcase code of
spectator-bot.js, in source order. -/
inductive SAction where
  | clearFollowTimer
  | startFollowTimer
  | chatSpectate (name : String)
  | tpBehind (name : String) (height distance : ℚ)
  | tpShowcase (x y z : ℚ)
  deriving DecidableEq

/-- One entry of `showcaseLocations` (spectator-bot.js lines 57-60). -/
structure SLocation where
  x : ℚ
  y : ℚ
  z : ℚ
  description : String
  deriving DecidableEq

/-- Module-level mutable state of spectator-bot.js (lines 65-73) together
with the `lastSwitchTime` local of `startPlayerTracking` (line 296).
`followTimer` records whether `followUpdateInterval` is a live timer.
(`lastActivity`, `trackingInterval` and the viewer handle play no part in
the verified claims and are omitted; `lastCommandTime` is declared at
line 71 and never written nor read by any decision — it is carried to
make that explicit.) -/
structure SState where
  currentTarget : Option String
  lastSwitchTime : ℤ
  playerRotationIndex : ℕ
  lastPlayerListSignature : String
  showcaseActive : Bool
  showcaseIndex : ℕ
  followTimer : Bool
  lastCommandTime : ℤ
  deriving DecidableEq

/-- The clean module state at process start, with `lastSwitchTime`
initialized to the current time as `startPlayerTracking` does. -/
def initialSState (now : ℤ) : SState :=
  { currentTarget := none
    lastSwitchTime := now
    playerRotationIndex := 0
    lastPlayerListSignature := ""
    showcaseActive := false
    showcaseIndex := 0
    followTimer := false
    lastCommandTime := 0 }

/-- The subject-list filter of the tracking tick (spectator-bot.js lines
300-302): keeps entries with a truthy (non-empty) username different from
the bot's own username. -/
def filterPlayers (botName : String) (allPlayers : List String) : List String :=
  allPlayers.filter (fun u => u != "" && u != botName)

/-- Lexicographic comparison of character lists, mirroring the default
JavaScript `Array.prototype.sort()` string order. -/
def charListLe : List Char → List Char → Bool
  | [], _ => true
  | _ :: _, [] => false
  | a :: as, b :: bs =>
    if a < b then true else if b < a then false else charListLe as bs

/-- String comparison used to sort the player-name list. -/
def strLe (a b : String) : Bool := charListLe a.data b.data

/-- Insertion into a sorted list of names. -/
def insertSorted (x : String) : List String → List String
  | [] => [x]
  | y :: ys => if strLe x y then x :: y :: ys else y :: insertSorted x ys

/-- Insertion sort of names, modelling `names.sort()`. -/
def sortNames : List String → List String
  | [] => []
  | x :: xs => insertSorted x (sortNames xs)

/-- The change-dampened player-list signature
(`names.sort(); names.join(',')`, spectator-bot.js lines 305-306). -/
def signatureOf (players : List String) : String :=
  String.intercalate "," (sortNames players)

/-- Result of one run of the `updatePosition` closure: whether it
self-cancelled its timer, the commands it emitted, and the (unchanged)
module `lastCommandTime`. -/
structure UpdateResult where
  cancelTimer : Bool
  actions : List SAction
  lastCommandTime : ℤ
  deriving DecidableEq

/-- The `updatePosition` closure of `startContinuousFollow`
(spectator-bot.js lines 390-411). `playerName` is the captured `player`,
`currentTarget` and `lastCommandTime` are the module state, `lookup`
is `bot.players[player.username]`. Note the source reads no clock and
never touches `lastCommandTime`: when the target matches and resolves,
the `/execute ... tp` command is emitted unconditionally. -/
def updatePosition (playerName : String) (currentTarget : Option String)
    (lookup : Option PlayerEnv) (base baseHeight : ℚ)
    (lastCommandTime : ℤ) : UpdateResult :=
  if currentTarget ≠ some playerName then
    { cancelTimer := true, actions := [], lastCommandTime := lastCommandTime }
  else
    match lookup with
    | none => { cancelTimer := false, actions := [], lastCommandTime := lastCommandTime }
    | some p =>
      let distance := calculateAdaptiveDistance base p
      let height := heightUsed baseHeight
      { cancelTimer := false
        actions := [SAction.tpBehind playerName height distance]
        lastCommandTime := lastCommandTime }

/-- startContinuousFollow (spectator-bot.js lines 374-419): clears any
previous follow timer, then either issues `/spectate` (USE_SPECTATE mode)
or performs one immediate `updatePosition` call and starts the repeating
follow timer. -/
def startContinuousFollow (useSpectate : Bool) (lookup : String → Option PlayerEnv)
    (base baseHeight : ℚ) (playerName : String) (s : SState) :
    SState × List SAction :=
  let (s1, a0) :=
    if s.followTimer then ({ s with followTimer := false }, [SAction.clearFollowTimer])
    else (s, [])
  if useSpectate then
    (s1, a0 ++ [SAction.chatSpectate playerName])
  else
    let r := updatePosition playerName s1.currentTarget (lookup playerName)
      base baseHeight s1.lastCommandTime
    -- the interval is installed after the initial call regardless
    ({ s1 with lastCommandTime := r.lastCommandTime, followTimer := true },
     a0 ++ r.actions ++ [SAction.startFollowTimer])

/-- showcaseBases (spectator-bot.js lines 491-515): activates showcase,
then — unless the configured location list is empty — teleports to the
location at the current (persisted, NOT reset) `showcaseIndex` cursor and
advances the cursor with wraparound. No repeating timer is created. The
try/catch is not modelled: none of the modelled operations throw. -/
def showcaseBases (locations : List SLocation) (s : SState) :
    SState × List SAction :=
  if s.showcaseActive then (s, [])
  else
    let s1 := { s with showcaseActive := true }
    if locations.length = 0 then (s1, [])
    else
      let loc := locations.getD s1.showcaseIndex ⟨0, 0, 0, ""⟩
      let s2 := { s1 with showcaseIndex := (s1.showcaseIndex + 1) % locations.length }
      (s2, [SAction.tpShowcase loc.x loc.y loc.z])

/-- The switch decision of the tracking tick (spectator-bot.js lines
334-352), reading the module's `currentTarget` and the loop-local
`lastSwitchTime`: switch when there is no current target, or the current
target is no longer online, or the switch interval elapsed and more than
one player is present. -/
def shouldSwitchOf (switchInterval now lastSwitchTime : ℤ)
    (currentTarget : Option String) (players : List String) : Bool :=
  let currentTargetOnline :=
    match currentTarget with
    | none => false
    | some u => players.contains u
  if currentTarget = none then true
  else if !currentTargetOnline then true
  else if now - lastSwitchTime ≥ switchInterval ∧ 1 < players.length then true
  else false

/-- One tick of the `trackingInterval` loop (spectator-bot.js lines
299-371): filter the player list, update the change-dampened signature,
branch to showcase when nobody is online, otherwise leave showcase and
apply the switch decision (round-robin advance, record switch time,
restart continuous follow). -/
def trackingTick (switchInterval : ℤ) (useSpectate : Bool) (botName : String)
    (locations : List SLocation) (lookup : String → Option PlayerEnv)
    (base baseHeight : ℚ) (allPlayers : List String) (now : ℤ) (s : SState) :
    SState × List SAction :=
  let players := filterPlayers botName allPlayers
  let signature := signatureOf players
  let s0 := if signature ≠ s.lastPlayerListSignature
            then { s with lastPlayerListSignature := signature } else s
  if players.length = 0 then
    let (s1, a1) :=
      if s0.currentTarget ≠ none then
        ({ s0 with currentTarget := none, followTimer := false },
         if s0.followTimer then [SAction.clearFollowTimer] else [])
      else (s0, [])
    let (s2, a2) := if !s1.showcaseActive then showcaseBases locations s1 else (s1, [])
    (s2, a1 ++ a2)
  else
    let s1 := if s0.showcaseActive then { s0 with showcaseActive := false } else s0
    if shouldSwitchOf switchInterval now s1.lastSwitchTime s1.currentTarget players then
      let idx := (s1.playerRotationIndex + 1) % players.length
      let newTarget := players.getD idx ""
      let s2 := { s1 with playerRotationIndex := idx
                          currentTarget := some newTarget
                          lastSwitchTime := now }
      startContinuousFollow useSpectate lookup base baseHeight newTarget s2
    else (s1, [])

/-- Runs a sequence of tracking ticks, collecting each tick's trace. -/
def runTicks (switchInterval : ℤ) (useSpectate : Bool) (botName : String)
    (locations : List SLocation) (lookup : String → Option PlayerEnv)
    (base baseHeight : ℚ) :
    List (List String × ℤ) → SState → SState × List (List SAction)
  | [], s => (s, [])
  | (ps, t) :: rest, s =>
    let r := trackingTick switchInterval useSpectate botName locations lookup
      base baseHeight ps t s
    let rr := runTicks switchInterval useSpectate botName locations lookup
      base baseHeight rest r.1
    (rr.1, r.2 :: rr.2)

/-- Mutual-exclusion check on the module state: showcase mode active
implies no current subject. -/
def mutexOkS (s : SState) : Bool :=
  !s.showcaseActive || decide (s.currentTarget = none)

/-- Timer-discipline scan for the current revision's traces: starting
from the liveness of the follow timer at the beginning of a tick, a
showcase move (`tpShowcase`, the entry effect of showcase mode — this
revision has no showcase timer) is admissible only while no follow
timer is live, i.e. the follow interval of the mode being exited is
always cleared before showcase mode is started. -/
def noCrossS (followLive : Bool) : List SAction → Bool
  | [] => true
  | SAction.clearFollowTimer :: rest => noCrossS false rest
  | SAction.startFollowTimer :: rest => noCrossS true rest
  | SAction.tpShowcase _ _ _ :: rest => !followLive && noCrossS followLive rest
  | _ :: rest => noCrossS followLive rest

/-- State invariant: a live follow timer only exists while a current
target is set. -/
def followTimerInvS (s : SState) : Prop :=
  s.followTimer = true → s.currentTarget ≠ none

/-- Checks that every tick of a run respects the timer discipline
(`noCrossS`), threading each tick's pre-state timer liveness. -/
def runOkS (switchInterval : ℤ) (useSpectate : Bool) (botName : String)
    (locations : List SLocation) (lookup : String → Option PlayerEnv)
    (base baseHeight : ℚ) :
    List (List String × ℤ) → SState → Bool
  | [], _ => true
  | (ps, t) :: rest, s =>
    let r := trackingTick switchInterval useSpectate botName locations lookup
      base baseHeight ps t s
    noCrossS s.followTimer r.2 &&
      runOkS switchInterval useSpectate botName locations lookup base baseHeight
        rest r.1

/-- Effect of the `'end'` handler on the tracking state (spectator-bot.js
lines 241-248): both intervals are cleared; every other module variable
is left untouched. -/
def botEndClearTimers (s : SState) : SState := { s with followTimer := false }

/-- Effect of the preamble of `startPlayerTracking` (spectator-bot.js
lines 282-296) on the tracking state: intervals cleared again and the
local `lastSwitchTime` initialized to the current time; the module
variables (`currentTarget`, `playerRotationIndex`,
`lastPlayerListSignature`, `showcaseActive`, `showcaseIndex`, ...)
are not written. -/
def startPlayerTrackingInit (now : ℤ) (s : SState) : SState :=
  { s with followTimer := false, lastSwitchTime := now }

/-- The tracking state after a reconnect: `'end'` handler cleanup followed
by the restart of `startPlayerTracking` from the new session's `spawn`. -/
def reconnectReset (now : ℤ) (s : SState) : SState :=
  startPlayerTrackingInit now (botEndClearTimers s)

/-- A tracking state as left by a previous session: following Alice with
a live follow timer, rotation index 2, a non-empty list signature. -/
def staleState : SState :=
  { currentTarget := some "Alice"
    lastSwitchTime := 5
    playerRotationIndex := 2
    lastPlayerListSignature := "Alice,Bob"
    showcaseActive := false
    showcaseIndex := 1
    followTimer := true
    lastCommandTime := 7 }

/-- Side effects of the session supervisor handlers. -/
inductive SupAction where
  | clearTimers
  | logWillRetry
  | exitProcess
  | scheduleReconnect (delayMs : ℕ)
  deriving DecidableEq

/-- MAX_CONSECUTIVE_FAILURES (spectator-bot.js line 158). -/
def MAX_CONSECUTIVE_FAILURES : ℕ := 3

/-- The initial `createBot().catch` handler (spectator-bot.js lines
166-182): while authenticating it does nothing; otherwise it increments
the failure count and calls `process.exit(1)` in BOTH branches — below
the threshold it logs "Will retry..." and still exits. -/
def initialConnectCatch (isAuthenticating : Bool) (consecutiveFailures : ℕ) :
    ℕ × List SupAction :=
  if isAuthenticating then (consecutiveFailures, [])
  else
    let cf := consecutiveFailures + 1
    if cf ≥ MAX_CONSECUTIVE_FAILURES then (cf, [SupAction.exitProcess])
    else (cf, [SupAction.logWillRetry, SupAction.exitProcess])

/-- The `bot.on('end')` handler (spectator-bot.js lines 241-275): clears
the intervals; returns while authenticating; exits at/above the failure
threshold; otherwise schedules a reconnect attempt after a fixed 10 s
backoff. -/
def endHandler (isAuthenticating : Bool) (consecutiveFailures : ℕ) :
    List SupAction :=
  SupAction.clearTimers ::
    (if isAuthenticating then []
     else if consecutiveFailures ≥ MAX_CONSECUTIVE_FAILURES then
       [SupAction.exitProcess]
     else [SupAction.scheduleReconnect 10000])

/-- The `.catch` of the reconnect attempt inside the `'end'` handler
(spectator-bot.js lines 267-273): increments the count and exits at the
threshold; below it, nothing further happens (no new retry scheduled). -/
def reconnectCatch (consecutiveFailures : ℕ) : ℕ × List SupAction :=
  let cf := consecutiveFailures + 1
  (cf, if cf ≥ MAX_CONSECUTIVE_FAILURES then [SupAction.exitProcess] else [])

end SpectatorBot

namespace RevB

/-- A world position (`player.entity.position`). -/
structure Vec3 where
  x : ℚ
  y : ℚ
  z : ℚ
  deriving DecidableEq

/-- One entry of `SHOWCASE_LOCATIONS` (part_002 revision, lines 339-348):
position, optional yaw/pitch (defaulted by `goToShowcaseLocation`),
description and optional per-location dwell duration. -/
structure ShowcaseLocation where
  x : ℚ
  y : ℚ
  z : ℚ
  yaw : Option ℚ
  pitch : Option ℚ
  description : String
  duration : Option ℕ
  deriving DecidableEq

/-- Side effects performed by the part_002 revision, in source order.
`emitCameraCmd pos` stands for the `/tp @s <camera transform>` chat
command computed from the subject position `pos` (its exact numeric
payload is a pure function of `pos` and the camera constants and plays
no part in the verified claims); `tpLoc` is the showcase
`/tp @s x y z yaw pitch`. -/
inductive BAction where
  | clearCameraTimer
  | startCameraTimer
  | clearShowcaseTimer
  | startShowcaseTimer (periodMs : ℕ)
  | chatSpectate (name : String)
  | tpToPlayer (name : String)
  | emitCameraCmd (pos : Vec3)
  | tpLoc (x y z yaw pitch : ℚ)
  | overlay (text : String)
  deriving DecidableEq

/-- Module-level mutable state of the part_002 revision (lines 359-368)
together with the `lastSwitchTime` local of `startPlayerTracking`.
`cameraTimer` and `showcaseTimer` record whether `cameraUpdateInterval`
and `showcaseInterval` are live timers. -/
structure BState where
  currentTarget : Option String
  currentTargetName : String
  lastSwitchTime : ℤ
  playerRotationIndex : ℕ
  lastPlayerListSignature : String
  showcaseActive : Bool
  showcaseIndex : ℕ
  lastCommandTime : ℤ
  cameraTimer : Bool
  showcaseTimer : Bool
  deriving DecidableEq

/-- The clean module state at process start. -/
def initialBState (now : ℤ) : BState :=
  { currentTarget := none
    currentTargetName := ""
    lastSwitchTime := now
    playerRotationIndex := 0
    lastPlayerListSignature := ""
    showcaseActive := false
    showcaseIndex := 0
    lastCommandTime := 0
    cameraTimer := false
    showcaseTimer := false }

/-- goToShowcaseLocation (part_002 revision, lines 588-605): with an
empty configured list, writes a default overlay and teleports to the
hard-coded default transform `0 80 0 0 20`; otherwise teleports to the
location at the current cursor with defaulted yaw (0) and pitch (20),
after writing the overlay (the source prefixes the description with a
film emoji, elided here). It never changes state. -/
def goToShowcaseLocation (locations : List ShowcaseLocation) (s : BState) :
    List BAction :=
  if locations.length = 0 then
    [BAction.overlay "Showcase: Spawn", BAction.tpLoc 0 80 0 0 20]
  else
    let loc := locations.getD s.showcaseIndex ⟨0, 0, 0, none, none, "", none⟩
    let desc := if loc.description = "" then
        "Location " ++ toString (s.showcaseIndex + 1)
      else loc.description
    [BAction.overlay desc,
     BAction.tpLoc loc.x loc.y loc.z (loc.yaw.getD 0) (loc.pitch.getD 20)]

/-- startShowcaseTour (part_002 revision, lines 563-578): no-op when
already active; otherwise activates showcase, resets the cursor to 0,
immediately moves to the first location, then installs the repeating
showcase timer with period `SHOWCASE_LOCATIONS[showcaseIndex]?.duration
|| SHOWCASE_DURATION` (a falsy — absent or zero — per-location duration
falls back to the default). Note the timer is installed even when the
location list is empty. -/
def startShowcaseTour (locations : List ShowcaseLocation)
    (defaultDuration : ℕ) (s : BState) : BState × List BAction :=
  if s.showcaseActive then (s, [])
  else
    let s1 := { s with showcaseActive := true, showcaseIndex := 0 }
    let moveActs := goToShowcaseLocation locations s1
    let period :=
      match (locations.get? s1.showcaseIndex).bind (fun l => l.duration) with
      | some d => if d = 0 then defaultDuration else d
      | none => defaultDuration
    ({ s1 with showcaseTimer := true },
     moveActs ++ [BAction.startShowcaseTimer period])

/-- stopShowcaseTour (part_002 revision, lines 580-586): deactivates
showcase and clears the showcase timer if one is live. -/
def stopShowcaseTour (s : BState) : BState × List BAction :=
  let s1 := { s with showcaseActive := false }
  if s1.showcaseTimer then
    ({ s1 with showcaseTimer := false }, [BAction.clearShowcaseTimer])
  else (s1, [])

/-- Result of one run of the `updateCamera` closure. -/
structure CamResult where
  cancelTimer : Bool
  emitted : Bool
  actions : List BAction
  lastCommandTime : ℤ
  deriving DecidableEq

/-- The `updateCamera` closure of `startContinuousFollow` (part_002
revision, lines 620-662). `lookup` models `bot.players[player.username]`:
`none` = no entry, `some none` = entry without a resolved entity,
`some (some pos)` = resolved at `pos` (the source's
`!targetPlayer?.entity` merges the first two). An unresolved target is
re-centered at most once per 3000 ms; a resolved target's camera command
is emitted only when more than 500 ms elapsed since `lastCommandTime`,
and every emission updates `lastCommandTime`. -/
def updateCamera (playerName : String) (currentTarget : Option String)
    (lookup : Option (Option Vec3)) (lastCommandTime now : ℤ) : CamResult :=
  if currentTarget ≠ some playerName then
    { cancelTimer := true, emitted := false, actions := []
      lastCommandTime := lastCommandTime }
  else
    let recenter : CamResult :=
      if now - lastCommandTime > 3000 then
        { cancelTimer := false, emitted := true
          actions := [BAction.tpToPlayer playerName], lastCommandTime := now }
      else
        { cancelTimer := false, emitted := false, actions := []
          lastCommandTime := lastCommandTime }
    match lookup with
    | none => recenter
    | some none => recenter
    | some (some pos) =>
      if now - lastCommandTime > 500 then
        { cancelTimer := false, emitted := true
          actions := [BAction.emitCameraCmd pos], lastCommandTime := now }
      else
        { cancelTimer := false, emitted := false, actions := []
          lastCommandTime := lastCommandTime }

/-- startContinuousFollow (part_002 revision, lines 611-667): clears any
previous camera timer, then either issues `/spectate` (CAMERA_MODE
'spectate') or performs one immediate `updateCamera` call and installs
the repeating camera timer. -/
def startContinuousFollow (spectateMode : Bool)
    (resolve : String → Option (Option Vec3)) (playerName : String)
    (now : ℤ) (s : BState) : BState × List BAction :=
  let (s1, a0) :=
    if s.cameraTimer then ({ s with cameraTimer := false }, [BAction.clearCameraTimer])
    else (s, [])
  if spectateMode then
    (s1, a0 ++ [BAction.chatSpectate playerName])
  else
    let r := updateCamera playerName s1.currentTarget (resolve playerName)
      s1.lastCommandTime now
    -- the interval is installed after the initial call regardless
    ({ s1 with lastCommandTime := r.lastCommandTime, cameraTimer := true },
     a0 ++ r.actions ++ [BAction.startCameraTimer])

/-- The switch decision of the part_002 tracking tick (line 532). -/
def shouldSwitchOf (switchInterval now lastSwitchTime : ℤ)
    (currentTarget : Option String) (players : List String) : Bool :=
  let currentOnline :=
    match currentTarget with
    | none => false
    | some u => players.contains u
  decide (currentTarget = none) || !currentOnline ||
    (decide (now - lastSwitchTime ≥ switchInterval) && decide (1 < players.length))

/-- The decision stage of one tracking tick of the part_002 revision
(lines 511-546), applied after the filter/signature stage: with nobody
online, enters the showcase tour (clearing the camera timer first);
otherwise stops the tour and applies the switch decision (round-robin
advance, overlay write, restart continuous follow). -/
def tickBody (switchInterval : ℤ) (spectateMode : Bool)
    (locations : List ShowcaseLocation) (defaultDuration : ℕ)
    (resolve : String → Option (Option Vec3))
    (players : List String) (now : ℤ) (s0 : BState) : BState × List BAction :=
  if players.length = 0 then
    if s0.currentTarget ≠ none || !s0.showcaseActive then
      let s1 := { s0 with currentTarget := none, currentTargetName := "" }
      let (s2, a1) :=
        if s1.cameraTimer then ({ s1 with cameraTimer := false }, [BAction.clearCameraTimer])
        else (s1, [])
      let r := startShowcaseTour locations defaultDuration s2
      (r.1, a1 ++ r.2)
    else (s0, [])
  else
    let (s1, a0) := if s0.showcaseActive then stopShowcaseTour s0 else (s0, [])
    if shouldSwitchOf switchInterval now s1.lastSwitchTime s1.currentTarget players then
      let idx := (s1.playerRotationIndex + 1) % players.length
      let newTarget := players.getD idx ""
      let s2 := { s1 with playerRotationIndex := idx
                          currentTarget := some newTarget
                          currentTargetName := newTarget
                          lastSwitchTime := now }
      let r := startContinuousFollow spectateMode resolve newTarget now s2
      (r.1, a0 ++ [BAction.overlay ("Now following: " ++ newTarget)] ++ r.2)
    else (s1, a0)

/-- One tick of the `trackingInterval` loop of the part_002 revision
(lines 501-547): the same player filter and change-dampened signature as
the current revision, then the decision stage (`tickBody`). -/
def trackingTick (switchInterval : ℤ) (spectateMode : Bool) (botName : String)
    (locations : List ShowcaseLocation) (defaultDuration : ℕ)
    (resolve : String → Option (Option Vec3))
    (allPlayers : List String) (now : ℤ) (s : BState) : BState × List BAction :=
  let players := SpectatorBot.filterPlayers botName allPlayers
  let signature := SpectatorBot.signatureOf players
  let s0 := if signature ≠ s.lastPlayerListSignature
            then { s with lastPlayerListSignature := signature } else s
  tickBody switchInterval spectateMode locations defaultDuration resolve players now s0

/-- Timer-discipline scan of a tick's trace: starting from the liveness
of the camera and showcase timers at the beginning of the tick, a
`startCameraTimer` is admissible only while no showcase timer is live and
a `startShowcaseTimer` only while no camera timer is live — i.e. the
timer of the mode being exited is always cancelled before the other
mode's timer is started, and the two timers are never simultaneously
live within a tick. -/
def noCross (camLive shLive : Bool) : List BAction → Bool
  | [] => true
  | BAction.clearCameraTimer :: rest => noCross false shLive rest
  | BAction.startCameraTimer :: rest => !shLive && noCross true shLive rest
  | BAction.clearShowcaseTimer :: rest => noCross camLive false rest
  | BAction.startShowcaseTimer _ :: rest => !camLive && noCross camLive true rest
  | _ :: rest => noCross camLive shLive rest

/-- Runs a sequence of tracking ticks, collecting each tick's trace. -/
def runTicksB (switchInterval : ℤ) (spectateMode : Bool) (botName : String)
    (locations : List ShowcaseLocation) (defaultDuration : ℕ)
    (resolve : String → Option (Option Vec3)) :
    List (List String × ℤ) → BState → BState × List (List BAction)
  | [], s => (s, [])
  | (ps, t) :: rest, s =>
    let r := trackingTick switchInterval spectateMode botName locations
      defaultDuration resolve ps t s
    let rr := runTicksB switchInterval spectateMode botName locations
      defaultDuration resolve rest r.1
    (rr.1, r.2 :: rr.2)

/-- Checks that every tick of a run respects the timer discipline
(`noCross`), threading each tick's pre-state timer liveness. -/
def runOkB (switchInterval : ℤ) (spectateMode : Bool) (botName : String)
    (locations : List ShowcaseLocation) (defaultDuration : ℕ)
    (resolve : String → Option (Option Vec3)) :
    List (List String × ℤ) → BState → Bool
  | [], _ => true
  | (ps, t) :: rest, s =>
    let r := trackingTick switchInterval spectateMode botName locations
      defaultDuration resolve ps t s
    noCross s.cameraTimer s.showcaseTimer r.2 &&
      runOkB switchInterval spectateMode botName locations defaultDuration
        resolve rest r.1

/-- Mutual-exclusion check on the module state: showcase mode active
implies no current subject. -/
def mutexOkB (s : BState) : Bool :=
  !s.showcaseActive || decide (s.currentTarget = none)

/-- A trace fragment containing no timer operations (only chat, teleport
and overlay effects). -/
def timerFree : List BAction → Bool
  | [] => true
  | BAction.clearCameraTimer :: _ => false
  | BAction.startCameraTimer :: _ => false
  | BAction.clearShowcaseTimer :: _ => false
  | BAction.startShowcaseTimer _ :: _ => false
  | _ :: rest => timerFree rest

/-- State invariant: a live showcase timer only exists while showcase
mode is active. -/
def showcaseTimerInv (s : BState) : Prop :=
  s.showcaseTimer = true → s.showcaseActive = true

end RevB

open SpectatorBot

theorem offsets_length : offsets.length = 25 := rfl

theorem solidBlockCount_le (p : PlayerEnv) : solidBlockCount p ≤ 25 := by
  have h := List.length_filter_le (fun d => p.isSolid d) offsets
  simpa [solidBlockCount, offsets_length] using h

theorem solidFrac_nonneg (p : PlayerEnv) : 0 ≤ solidFrac p := by
  unfold solidFrac
  positivity

theorem solidFrac_le_one (p : PlayerEnv) : solidFrac p ≤ 1 := by
  unfold solidFrac
  rw [div_le_one (by rw [offsets_length]; norm_num)]
  rw [offsets_length]
  exact_mod_cast solidBlockCount_le p

theorem clamp_bounds (d : ℚ) :
    MIN_FOLLOW_DISTANCE ≤ max MIN_FOLLOW_DISTANCE (min MAX_FOLLOW_DISTANCE d) ∧
    max MIN_FOLLOW_DISTANCE (min MAX_FOLLOW_DISTANCE d) ≤ MAX_FOLLOW_DISTANCE := by
  constructor
  · exact le_max_left _ _
  · apply max_le
    · norm_num [MIN_FOLLOW_DISTANCE, MAX_FOLLOW_DISTANCE]
    · exact min_le_left _ _

theorem calculateAdaptiveDistance_eq (base : ℚ) (p : PlayerEnv)
    (h : p.entity = true) :
    calculateAdaptiveDistance base p =
      max MIN_FOLLOW_DISTANCE (min MAX_FOLLOW_DISTANCE
        (MAX_FOLLOW_DISTANCE - solidFrac p * (MAX_FOLLOW_DISTANCE - MIN_FOLLOW_DISTANCE))) := by
  simp [calculateAdaptiveDistance, h]

/-- C4 (amended): for every resolved subject, whatever the enclosure
score (always in [0, 1]), the adaptive camera distance lies within the
configured distance bounds [MIN_FOLLOW_DISTANCE, MAX_FOLLOW_DISTANCE];
the camera height, however, is the configured BASE_FOLLOW_HEIGHT used
verbatim — no height bounds exist or are enforced. -/
theorem c4_distance_bounds_height_unclamped (base : ℚ) (p : PlayerEnv)
    (h : p.entity = true) :
    (MIN_FOLLOW_DISTANCE ≤ calculateAdaptiveDistance base p ∧
      calculateAdaptiveDistance base p ≤ MAX_FOLLOW_DISTANCE) ∧
    (0 ≤ solidFrac p ∧ solidFrac p ≤ 1) ∧
    (∀ b : ℚ, heightUsed b = b) := by
  refine ⟨?_, ⟨solidFrac_nonneg p, solidFrac_le_one p⟩, fun b => rfl⟩
  rw [calculateAdaptiveDistance_eq base p h]
  exact clamp_bounds _

/-- C4 witness: at base distance 8 in a fully open environment, the
distance bounds hold and the height passes through unclamped. -/
theorem c4_witness :
    openEnv.entity = true ∧
    ((MIN_FOLLOW_DISTANCE ≤ calculateAdaptiveDistance 8 openEnv ∧
       calculateAdaptiveDistance 8 openEnv ≤ MAX_FOLLOW_DISTANCE) ∧
     (0 ≤ solidFrac openEnv ∧ solidFrac openEnv ≤ 1) ∧
     (∀ b : ℚ, heightUsed b = b)) :=
  ⟨rfl, c4_distance_bounds_height_unclamped 8 openEnv rfl⟩

/-- C4 counterexample: the emitted camera height is exactly the
configured base height (here −1000), so no pair of height bounds can
contain it for every configuration — the claim's "height lies within
configured [minimum, maximum] height bounds" is false: no such bounds
exist in the code and the height is not clamped at all. -/
theorem c4_counterexample :
    heightUsed (-1000) = -1000 ∧
    ¬ ∃ lo hi : ℚ, ∀ b : ℚ, lo ≤ heightUsed b ∧ heightUsed b ≤ hi := by
  refine ⟨rfl, ?_⟩
  rintro ⟨lo, hi, hb⟩
  have h1 := (hb (hi + 1)).2
  have h2 : heightUsed (hi + 1) = hi + 1 := rfl
  rw [h2] at h1
  linarith

/-- C5 (amended): at enclosure score 1.0 the adaptive distance equals
the configured minimum distance (4), which is at most 50% of the base
distance whenever that 50% is at least the minimum and equals the
minimum otherwise; but in general the distance is
`max MIN (min MAX (MAX − score·(MAX − MIN)))` — a linear interpolation
between MAX and MIN that does not involve the base distance at all. -/
theorem c5_enclosed_min_distance (base : ℚ) (p : PlayerEnv)
    (he : p.entity = true) (hf : solidFrac p = 1) :
    calculateAdaptiveDistance base p = MIN_FOLLOW_DISTANCE ∧
    (MIN_FOLLOW_DISTANCE ≤ base / 2 → calculateAdaptiveDistance base p ≤ base / 2) ∧
    (base / 2 < MIN_FOLLOW_DISTANCE → calculateAdaptiveDistance base p = MIN_FOLLOW_DISTANCE) ∧
    calculateAdaptiveDistance base p =
      max MIN_FOLLOW_DISTANCE (min MAX_FOLLOW_DISTANCE
        (MAX_FOLLOW_DISTANCE - solidFrac p * (MAX_FOLLOW_DISTANCE - MIN_FOLLOW_DISTANCE))) := by
  have heq := calculateAdaptiveDistance_eq base p he
  have h4 : calculateAdaptiveDistance base p = MIN_FOLLOW_DISTANCE := by
    rw [heq, hf]
    norm_num [MIN_FOLLOW_DISTANCE, MAX_FOLLOW_DISTANCE]
  refine ⟨h4, fun hb => ?_, fun _ => h4, heq⟩
  rw [h4]
  exact hb

theorem solidBlockCount_fullEnv : solidBlockCount fullEnv = 25 := by decide

theorem solidFrac_fullEnv : solidFrac fullEnv = 1 := by
  rw [solidFrac, solidBlockCount_fullEnv, offsets_length]
  norm_num

theorem solidBlockCount_fifteenSolidEnv : solidBlockCount fifteenSolidEnv = 15 := by
  decide

theorem solidFrac_fifteenSolidEnv : solidFrac fifteenSolidEnv = 3 / 5 := by
  rw [solidFrac, solidBlockCount_fifteenSolidEnv, offsets_length]
  norm_num

/-- C5 witness: fully enclosed environment (score 25/25 = 1) at the
default base distance 8: the result is the configured minimum. -/
theorem c5_witness :
    fullEnv.entity = true ∧ solidFrac fullEnv = 1 ∧
    calculateAdaptiveDistance 8 fullEnv = MIN_FOLLOW_DISTANCE :=
  ⟨rfl, solidFrac_fullEnv,
   (c5_enclosed_min_distance 8 fullEnv rfl solidFrac_fullEnv).1⟩

/-- C5 counterexample: at the default base distance 8 and enclosure
score 3/5, the code computes 42/5 = 8.4, while the claim's derivation
("base distance scaled down by up to 50% in proportion to the enclosure
score, then clamped") would give 8·(1 − 3/10) = 28/5 = 5.6 — the final
distance is not derived from the base distance. -/
theorem c5_counterexample :
    solidFrac fifteenSolidEnv = 3/5 ∧
    calculateAdaptiveDistance 8 fifteenSolidEnv = 42/5 ∧
    specScaledDistance 8 (3/5) = 28/5 ∧
    calculateAdaptiveDistance 8 fifteenSolidEnv ≠ specScaledDistance 8 (3/5) := by
  have h1 : calculateAdaptiveDistance 8 fifteenSolidEnv = 42/5 := by
    rw [calculateAdaptiveDistance_eq 8 fifteenSolidEnv rfl, solidFrac_fifteenSolidEnv]
    have hd : MAX_FOLLOW_DISTANCE - 3 / 5 * (MAX_FOLLOW_DISTANCE - MIN_FOLLOW_DISTANCE)
        = 42 / 5 := by
      norm_num [MIN_FOLLOW_DISTANCE, MAX_FOLLOW_DISTANCE]
    rw [hd, min_eq_right (by norm_num [MAX_FOLLOW_DISTANCE] : (42/5 : ℚ) ≤ MAX_FOLLOW_DISTANCE),
      max_eq_right (by norm_num [MIN_FOLLOW_DISTANCE] : MIN_FOLLOW_DISTANCE ≤ (42/5 : ℚ))]
  have h2 : specScaledDistance 8 (3/5) = 28/5 := by
    rw [specScaledDistance]
    have hd : (8 : ℚ) * (1 - 3 / 5 / 2) = 28 / 5 := by norm_num
    rw [hd, min_eq_right (by norm_num [MAX_FOLLOW_DISTANCE] : (28/5 : ℚ) ≤ MAX_FOLLOW_DISTANCE),
      max_eq_right (by norm_num [MIN_FOLLOW_DISTANCE] : MIN_FOLLOW_DISTANCE ≤ (28/5 : ℚ))]
  refine ⟨solidFrac_fifteenSolidEnv, h1, h2, ?_⟩
  rw [h1, h2]
  norm_num

/-- C10: when the subject's entity is not resolved,
`calculateAdaptiveDistance` returns the configured base follow distance
directly, and a base configured outside the [min, max] distance bounds
therefore yields a result outside those bounds. -/
theorem c10_unresolved_entity_unclamped (base : ℚ) (p : PlayerEnv)
    (h : p.entity = false) :
    calculateAdaptiveDistance base p = base ∧
    ((base < MIN_FOLLOW_DISTANCE ∨ MAX_FOLLOW_DISTANCE < base) →
      (calculateAdaptiveDistance base p < MIN_FOLLOW_DISTANCE ∨
       MAX_FOLLOW_DISTANCE < calculateAdaptiveDistance base p)) := by
  have heq : calculateAdaptiveDistance base p = base := by
    simp [calculateAdaptiveDistance, h]
  exact ⟨heq, fun hb => by rw [heq]; exact hb⟩

/-- C10 witness: with an unresolved entity and base distance 100
(outside [4, 15]), the returned distance is 100, above the maximum every
resolved-entity result respects. -/
theorem c10_witness :
    unresolvedEnv.entity = false ∧
    calculateAdaptiveDistance 100 unresolvedEnv = 100 ∧
    (calculateAdaptiveDistance 100 unresolvedEnv < MIN_FOLLOW_DISTANCE ∨
     MAX_FOLLOW_DISTANCE < calculateAdaptiveDistance 100 unresolvedEnv) :=
  ⟨rfl, (c10_unresolved_entity_unclamped 100 unresolvedEnv rfl).1,
   (c10_unresolved_entity_unclamped 100 unresolvedEnv rfl).2
     (Or.inr (by norm_num [MAX_FOLLOW_DISTANCE]))⟩

theorem startContinuousFollow_currentTarget (us : Bool)
    (lookup : String → Option PlayerEnv) (base bh : ℚ) (name : String) (s : SState) :
    (startContinuousFollow us lookup base bh name s).1.currentTarget = s.currentTarget := by
  unfold startContinuousFollow
  by_cases hf : s.followTimer <;> by_cases hu : us = true <;> simp [hf, hu]

/-- C1: at every tracking tick whose filtered subject list is non-empty,
the switch decision is true exactly when there is no current subject, or
the current subject's name is absent from the list, or the switch
interval elapsed and more than one subject is listed; in particular a
single-subject list that is the current subject never switches, and the
tick installs the round-robin-selected subject as current exactly when
the decision is true. -/
theorem c1_switch_iff (switchInterval : ℤ) (useSpectate : Bool) (botName : String)
    (locations : List SLocation) (lookup : String → Option PlayerEnv)
    (base baseHeight : ℚ) (allPlayers : List String) (now : ℤ) (s : SState)
    (hne : filterPlayers botName allPlayers ≠ []) :
    (shouldSwitchOf switchInterval now s.lastSwitchTime s.currentTarget
        (filterPlayers botName allPlayers) = true ↔
      (s.currentTarget = none ∨
       (∃ u, s.currentTarget = some u ∧
          (filterPlayers botName allPlayers).contains u = false) ∨
       (switchInterval ≤ now - s.lastSwitchTime ∧
          1 < (filterPlayers botName allPlayers).length))) ∧
    (∀ u, filterPlayers botName allPlayers = [u] → s.currentTarget = some u →
        shouldSwitchOf switchInterval now s.lastSwitchTime s.currentTarget
          (filterPlayers botName allPlayers) = false) ∧
    ((trackingTick switchInterval useSpectate botName locations lookup base baseHeight
        allPlayers now s).1.currentTarget =
      if shouldSwitchOf switchInterval now s.lastSwitchTime s.currentTarget
          (filterPlayers botName allPlayers)
      then some ((filterPlayers botName allPlayers).getD
          ((s.playerRotationIndex + 1) % (filterPlayers botName allPlayers).length) "")
      else s.currentTarget) := by
  refine ⟨?_, ?_, ?_⟩
  · cases hct : s.currentTarget with
    | none => simp [shouldSwitchOf, hct]
    | some u =>
      by_cases hc : (filterPlayers botName allPlayers).contains u = true
      · by_cases htime : switchInterval ≤ now - s.lastSwitchTime ∧
            1 < (filterPlayers botName allPlayers).length
        · simp [shouldSwitchOf, hct, hc, htime]
        · simp [shouldSwitchOf, hct, hc, htime]
      · simp [shouldSwitchOf, hct, hc]
  · intro u h1 h2
    simp [shouldSwitchOf, h1, h2]
  · have hlen : ¬ (filterPlayers botName allPlayers).length = 0 :=
      fun h => hne (List.length_eq_zero.mp h)
    cases hsw : shouldSwitchOf switchInterval now s.lastSwitchTime s.currentTarget
        (filterPlayers botName allPlayers) with
    | true =>
      by_cases hsig : signatureOf (filterPlayers botName allPlayers)
          ≠ s.lastPlayerListSignature <;>
        by_cases hsh : s.showcaseActive <;>
          simp [trackingTick, hsig, hsh, hlen, hsw, startContinuousFollow_currentTarget]
    | false =>
      by_cases hsig : signatureOf (filterPlayers botName allPlayers)
          ≠ s.lastPlayerListSignature <;>
        by_cases hsh : s.showcaseActive <;>
          simp [trackingTick, hsig, hsh, hlen, hsw]

/-- C1 witness: a single online subject ("Alice") that is already the
current subject does not trigger a switch even though far more than the
switch interval (30000 ms) elapsed since the last switch. -/
theorem c1_witness :
    filterPlayers "Bot" ["Alice"] = ["Alice"] ∧
    shouldSwitchOf 30000 1000000
      ({ initialSState 0 with currentTarget := some "Alice" } : SState).lastSwitchTime
      ({ initialSState 0 with currentTarget := some "Alice" } : SState).currentTarget
      (filterPlayers "Bot" ["Alice"]) = false :=
  ⟨rfl,
   (c1_switch_iff 30000 true "Bot" [] (fun _ => none) 8 3 ["Alice"] 1000000
      { initialSState 0 with currentTarget := some "Alice" }
      (by decide)).2.1 "Alice" rfl rfl⟩

theorem calculateAdaptiveDistance_openEnv : calculateAdaptiveDistance 8 openEnv = 15 := by
  rw [calculateAdaptiveDistance_eq 8 openEnv rfl]
  have h0 : solidFrac openEnv = 0 := by
    have hc : solidBlockCount openEnv = 0 := by decide
    rw [solidFrac, hc]
    norm_num
  rw [h0]
  have hd : MAX_FOLLOW_DISTANCE - 0 * (MAX_FOLLOW_DISTANCE - MIN_FOLLOW_DISTANCE)
      = 15 := by norm_num [MAX_FOLLOW_DISTANCE]
  rw [hd, min_eq_right (by norm_num [MAX_FOLLOW_DISTANCE] : (15:ℚ) ≤ MAX_FOLLOW_DISTANCE),
    max_eq_right (by norm_num [MIN_FOLLOW_DISTANCE] : MIN_FOLLOW_DISTANCE ≤ (15:ℚ))]

/-- C3 counterexample: the spectator-bot.js third-person update loop
(`updatePosition`) reads no clock at all — with the current target
"Alice" resolved, it emits the transform command whatever the elapsed
time since `lastCommandTime` (here conceptually zero) and returns
`lastCommandTime` unchanged (the module variable is never written),
refuting both the minimum-spacing gate and the timestamp update. -/
theorem c3_counterexample :
    (updatePosition "Alice" (some "Alice") (some openEnv) 8 3 1000).actions =
      [SAction.tpBehind "Alice" 3 15] ∧
    (updatePosition "Alice" (some "Alice") (some openEnv) 8 3 1000).lastCommandTime
      = 1000 := by
  constructor
  · show [SAction.tpBehind "Alice" (heightUsed 3) (calculateAdaptiveDistance 8 openEnv)]
      = [SAction.tpBehind "Alice" 3 15]
    rw [calculateAdaptiveDistance_openEnv]
    rfl
  · rfl

/-- C3 (amended): in the part_002 revision's `updateCamera` loop the
rate limiter does hold — a command is emitted only when strictly more
than 500 ms (resolved target) respectively 3000 ms (unresolved-target
re-centering) elapsed since `lastCommandTime`, every emission updates
`lastCommandTime` to the current time, and a rejected tick leaves the
timestamp and the command channel untouched.  The current revision
(spectator-bot.js) has no such gate: see the counterexample. -/
theorem c3_rate_limiter (playerName : String) (currentTarget : Option String)
    (lookup : Option (Option RevB.Vec3)) (lastCommandTime now : ℤ) :
    ((RevB.updateCamera playerName currentTarget lookup lastCommandTime now).emitted
        = true → 500 < now - lastCommandTime) ∧
    ((RevB.updateCamera playerName currentTarget lookup lastCommandTime now).emitted
        = true →
      (RevB.updateCamera playerName currentTarget lookup lastCommandTime now).lastCommandTime
        = now) ∧
    ((RevB.updateCamera playerName currentTarget lookup lastCommandTime now).emitted
        = false →
      (RevB.updateCamera playerName currentTarget lookup lastCommandTime now).lastCommandTime
        = lastCommandTime) ∧
    ((RevB.updateCamera playerName currentTarget lookup lastCommandTime now).emitted
        = true → (lookup = none ∨ lookup = some none) → 3000 < now - lastCommandTime) ∧
    ((RevB.updateCamera playerName currentTarget lookup lastCommandTime now).emitted
        = false →
      (RevB.updateCamera playerName currentTarget lookup lastCommandTime now).actions
        = []) := by
  by_cases hm : currentTarget = some playerName
  · rcases lookup with _ | (_ | pos) <;>
      (simp only [RevB.updateCamera, hm, ne_eq, eq_self_iff_true, not_true, if_false];
       split <;> refine ⟨?_, ?_, ?_, ?_, ?_⟩ <;> simp <;> omega)
  · refine ⟨?_, ?_, ?_, ?_, ?_⟩ <;> simp [RevB.updateCamera, hm]

/-- C3 witness: a resolved target 1000 ms (more than the 500 ms minimum
spacing) after the last accepted command: the command is emitted and the
rate-limiter timestamp advances to the current time. -/
theorem c3_rate_limiter_witness :
    (RevB.updateCamera "A" (some "A") (some (some ⟨0, 0, 0⟩)) 0 1000).lastCommandTime
      = 1000 ∧ (500 : ℤ) < 1000 - 0 :=
  ⟨(c3_rate_limiter "A" (some "A") (some (some ⟨0, 0, 0⟩)) 0 1000).2.1 rfl,
   by norm_num⟩

/-- C8 counterexample: the very first connection failure
(`createBot().catch`, not authenticating, failure count rising to
1 < 3, i.e. strictly below the threshold) logs "Will retry..." and then
still calls `process.exit(1)` — below-threshold initial failures are
not retried in-process, refuting "retried ... without terminating the
process". -/
theorem c8_counterexample :
    (initialConnectCatch false 0).1 = 1 ∧ 1 < MAX_CONSECUTIVE_FAILURES ∧
    (initialConnectCatch false 0).2 =
      [SupAction.logWillRetry, SupAction.exitProcess] := by
  refine ⟨rfl, by decide, rfl⟩

/-- C8 (amended): reaching the threshold of 3 consecutive failures is
fatal everywhere; a disconnect (`'end'`) below the threshold schedules a
reconnect after the fixed 10 s backoff without exiting; but a failure of
the initial connection attempt exits the process even below the
threshold (after logging that it will retry — the retry is left to the
container supervisor), and a failed reconnect attempt below the
threshold neither exits nor schedules another attempt. -/
theorem c8_failure_handling (cf : ℕ) :
    (cf < MAX_CONSECUTIVE_FAILURES →
      endHandler false cf = [SupAction.clearTimers, SupAction.scheduleReconnect 10000]) ∧
    (MAX_CONSECUTIVE_FAILURES ≤ cf →
      endHandler false cf = [SupAction.clearTimers, SupAction.exitProcess]) ∧
    endHandler true cf = [SupAction.clearTimers] ∧
    (initialConnectCatch false cf).1 = cf + 1 ∧
    (initialConnectCatch false cf).2.contains SupAction.exitProcess = true ∧
    (cf + 1 < MAX_CONSECUTIVE_FAILURES → reconnectCatch cf = (cf + 1, [])) ∧
    (MAX_CONSECUTIVE_FAILURES ≤ cf + 1 →
      reconnectCatch cf = (cf + 1, [SupAction.exitProcess])) := by
  refine ⟨fun h => ?_, fun h => ?_, ?_, ?_, ?_, fun h => ?_, fun h => ?_⟩
  · rw [endHandler, if_neg (by simp), if_neg (by omega)]
  · rw [endHandler, if_neg (by simp), if_pos h]
  · rw [endHandler, if_pos rfl]
  · rw [initialConnectCatch, if_neg (by simp)]
    by_cases h3 : cf + 1 ≥ MAX_CONSECUTIVE_FAILURES <;> simp [h3]
  · rw [initialConnectCatch, if_neg (by simp)]
    by_cases h3 : cf + 1 ≥ MAX_CONSECUTIVE_FAILURES
    · rw [if_pos h3]; rfl
    · rw [if_neg h3]; rfl
  · rw [reconnectCatch, if_neg (by omega)]
  · rw [reconnectCatch, if_pos h]

/-- C8 witness: one failure so far (below the threshold of 3): a
disconnect schedules a 10 s-backoff reconnect and does not exit. -/
theorem c8_failure_handling_witness :
    1 < MAX_CONSECUTIVE_FAILURES ∧
    endHandler false 1 = [SupAction.clearTimers, SupAction.scheduleReconnect 10000] :=
  ⟨by decide, (c8_failure_handling 1).1 (by decide)⟩

/-- C9 counterexample: after a reconnect (the `'end'` cleanup followed
by the restart of `startPlayerTracking`), a previous session's tracking
state — current subject "Alice", rotation index 2, list signature
"Alice,Bob", showcase cursor 1 — carries over unchanged; the state is
not the clean initial state the claim requires. -/
theorem c9_counterexample :
    (reconnectReset 100 staleState).currentTarget = some "Alice" ∧
    (initialSState 100).currentTarget = none ∧
    (reconnectReset 100 staleState).playerRotationIndex = 2 ∧
    (reconnectReset 100 staleState).lastPlayerListSignature = "Alice,Bob" ∧
    (reconnectReset 100 staleState).showcaseIndex = 1 ∧
    reconnectReset 100 staleState ≠ initialSState 100 := by
  refine ⟨rfl, rfl, rfl, rfl, rfl, ?_⟩
  intro h
  have := congrArg SState.currentTarget h
  simp [reconnectReset, startPlayerTrackingInit, botEndClearTimers, staleState,
    initialSState] at this

/-- C9 (amended): a reconnect clears only the interval handles and
re-initializes the loop-local `lastSwitchTime`; `currentTarget`,
`playerRotationIndex`, `lastPlayerListSignature`, `showcaseActive`,
`showcaseIndex` and `lastCommandTime` all retain their previous-session
values — no TrackingState reset happens. -/
theorem c9_reconnect_keeps_state (now : ℤ) (s : SState) :
    (reconnectReset now s).currentTarget = s.currentTarget ∧
    (reconnectReset now s).playerRotationIndex = s.playerRotationIndex ∧
    (reconnectReset now s).lastPlayerListSignature = s.lastPlayerListSignature ∧
    (reconnectReset now s).showcaseActive = s.showcaseActive ∧
    (reconnectReset now s).showcaseIndex = s.showcaseIndex ∧
    (reconnectReset now s).lastCommandTime = s.lastCommandTime ∧
    (reconnectReset now s).followTimer = false ∧
    (reconnectReset now s).lastSwitchTime = now :=
  ⟨rfl, rfl, rfl, rfl, rfl, rfl, rfl, rfl⟩

/-- C6 counterexample: spectator-bot.js, two configured showcase
locations, driven through three ticks from the clean state — players
absent, then "Bob" online, then absent again.  The second entry into
showcase mode (third tick) teleports to the SECOND location
(100, 70, 100), not the first configured location (0, 64, 0): the
cursor is not reset to 0 on entry, and no showcase timer action is ever
emitted. -/
theorem c6_counterexample :
    (runTicks 30000 true "Bot"
        [⟨0, 64, 0, "Spawn"⟩, ⟨100, 70, 100, "Base"⟩] (fun _ => none) 8 3
        [([], 0), (["Bob"], 5000), ([], 10000)] (initialSState 0)).2 =
      [[SAction.tpShowcase 0 64 0], [SAction.chatSpectate "Bob"],
       [SAction.tpShowcase 100 70 100]] ∧
    ([⟨0, 64, 0, "Spawn"⟩, ⟨100, 70, 100, "Base"⟩] : List SLocation).getD 0 ⟨0, 0, 0, ""⟩
      = ⟨0, 64, 0, "Spawn"⟩ ∧
    SAction.tpShowcase 100 70 100 ≠ SAction.tpShowcase 0 64 0 := by
  refine ⟨rfl, rfl, ?_⟩
  intro h
  injection h with h1 h2 h3
  exact absurd h1 (by decide)

/-- C6 (amended): in the part_002 revision, `startShowcaseTour` does
satisfy the claim — on entry (not already active, non-empty configured
list) it resets the cursor to 0, immediately emits the move to the first
configured location, and only afterwards starts the repeating showcase
timer.  The current revision's `showcaseBases` does not: see the
counterexample (persisted cursor, no reset, no timer). -/
theorem c6_showcase_entry (locations : List RevB.ShowcaseLocation) (d : ℕ)
    (s : RevB.BState) (hact : s.showcaseActive = false) (hne : locations ≠ []) :
    (RevB.startShowcaseTour locations d s).1.showcaseIndex = 0 ∧
    (RevB.startShowcaseTour locations d s).1.showcaseActive = true ∧
    (RevB.startShowcaseTour locations d s).1.showcaseTimer = true ∧
    ∃ desc p,
      (RevB.startShowcaseTour locations d s).2 =
        [RevB.BAction.overlay desc,
         RevB.BAction.tpLoc (locations.getD 0 ⟨0, 0, 0, none, none, "", none⟩).x
           (locations.getD 0 ⟨0, 0, 0, none, none, "", none⟩).y
           (locations.getD 0 ⟨0, 0, 0, none, none, "", none⟩).z
           ((locations.getD 0 ⟨0, 0, 0, none, none, "", none⟩).yaw.getD 0)
           ((locations.getD 0 ⟨0, 0, 0, none, none, "", none⟩).pitch.getD 20),
         RevB.BAction.startShowcaseTimer p] := by
  have hlen : ¬ locations.length = 0 := fun h => hne (List.length_eq_zero.mp h)
  simp only [RevB.startShowcaseTour, RevB.goToShowcaseLocation, hact,
    Bool.false_eq_true, if_false, hlen]
  refine ⟨trivial, trivial, trivial,
    (if (locations.getD 0 ⟨0, 0, 0, none, none, "", none⟩).description = "" then
        "Location " ++ toString (0 + 1)
      else (locations.getD 0 ⟨0, 0, 0, none, none, "", none⟩).description),
    (match (locations.get? 0).bind (fun l => l.duration) with
      | some d1 => if d1 = 0 then d else d1
      | none => d), ?_⟩
  simp

/-- C6 witness: entering the tour from the clean state with one
configured location (1, 2, 3): cursor reset to 0, move emitted to that
first location before the timer action. -/
theorem c6_showcase_entry_witness :
    ((RevB.initialBState 0).showcaseActive = false ∧
      ([⟨1, 2, 3, some 0, some 20, "Base", some 5000⟩] :
        List RevB.ShowcaseLocation) ≠ []) ∧
    (RevB.startShowcaseTour [⟨1, 2, 3, some 0, some 20, "Base", some 5000⟩] 10000
        (RevB.initialBState 0)).1.showcaseIndex = 0 ∧
    (RevB.startShowcaseTour [⟨1, 2, 3, some 0, some 20, "Base", some 5000⟩] 10000
        (RevB.initialBState 0)).1.showcaseActive = true ∧
    (RevB.startShowcaseTour [⟨1, 2, 3, some 0, some 20, "Base", some 5000⟩] 10000
        (RevB.initialBState 0)).1.showcaseTimer = true ∧
    ∃ desc p,
      (RevB.startShowcaseTour [⟨1, 2, 3, some 0, some 20, "Base", some 5000⟩] 10000
          (RevB.initialBState 0)).2 =
        [RevB.BAction.overlay desc,
         RevB.BAction.tpLoc
           (([⟨1, 2, 3, some 0, some 20, "Base", some 5000⟩] :
              List RevB.ShowcaseLocation).getD 0 ⟨0, 0, 0, none, none, "", none⟩).x
           (([⟨1, 2, 3, some 0, some 20, "Base", some 5000⟩] :
              List RevB.ShowcaseLocation).getD 0 ⟨0, 0, 0, none, none, "", none⟩).y
           (([⟨1, 2, 3, some 0, some 20, "Base", some 5000⟩] :
              List RevB.ShowcaseLocation).getD 0 ⟨0, 0, 0, none, none, "", none⟩).z
           ((([⟨1, 2, 3, some 0, some 20, "Base", some 5000⟩] :
              List RevB.ShowcaseLocation).getD 0
                ⟨0, 0, 0, none, none, "", none⟩).yaw.getD 0)
           ((([⟨1, 2, 3, some 0, some 20, "Base", some 5000⟩] :
              List RevB.ShowcaseLocation).getD 0
                ⟨0, 0, 0, none, none, "", none⟩).pitch.getD 20),
         RevB.BAction.startShowcaseTimer p] :=
  ⟨⟨rfl, by decide⟩,
   c6_showcase_entry [⟨1, 2, 3, some 0, some 20, "Base", some 5000⟩] 10000
     (RevB.initialBState 0) rfl (by decide)⟩

/-- C7 counterexample: activating the part_002 revision's showcase
controller with an EMPTY configured location list still creates a
repeating showcase timer handle (period = the global default dwell
duration), after moving to the default position — refuting "schedules no
repeating showcase timer; no timer handle is created in that case". -/
theorem c7_counterexample :
    (RevB.startShowcaseTour [] 10000 (RevB.initialBState 0)).2 =
      [RevB.BAction.overlay "Showcase: Spawn", RevB.BAction.tpLoc 0 80 0 0 20,
       RevB.BAction.startShowcaseTimer 10000] ∧
    (RevB.startShowcaseTour [] 10000 (RevB.initialBState 0)).1.showcaseTimer
      = true :=
  ⟨rfl, rfl⟩

/-- C7 (amended): with an empty configured location list the current
revision's `showcaseBases` holds the observer at its current position
(no move) and creates no timer (it never creates one); the part_002
revision's `startShowcaseTour` does move the observer to the single
default position but still creates a repeating showcase timer with the
default dwell period. -/
theorem c7_empty_locations (s : SState) (d : ℕ) (b : RevB.BState)
    (hb : b.showcaseActive = false) :
    (showcaseBases [] s).2 = [] ∧
    (showcaseBases [] s).1.showcaseActive = true ∧
    (showcaseBases [] s).1.showcaseIndex = s.showcaseIndex ∧
    (RevB.startShowcaseTour [] d b).2 =
      [RevB.BAction.overlay "Showcase: Spawn", RevB.BAction.tpLoc 0 80 0 0 20,
       RevB.BAction.startShowcaseTimer d] ∧
    (RevB.startShowcaseTour [] d b).1.showcaseTimer = true := by
  refine ⟨?_, ?_, ?_, ?_, ?_⟩ <;>
    by_cases hs : s.showcaseActive <;>
      simp [showcaseBases, hs, RevB.startShowcaseTour, RevB.goToShowcaseLocation, hb]

/-- C7 witness: empty location list from the clean states of both
revisions: no move and no timer in the current revision; default move
but a live timer in the part_002 revision. -/
theorem c7_empty_locations_witness :
    (RevB.initialBState 0).showcaseActive = false ∧
    (showcaseBases [] (initialSState 0)).2 = [] ∧
    (RevB.startShowcaseTour [] 10000 (RevB.initialBState 0)).1.showcaseTimer = true :=
  ⟨rfl, (c7_empty_locations (initialSState 0) 10000 (RevB.initialBState 0) rfl).1,
   (c7_empty_locations (initialSState 0) 10000 (RevB.initialBState 0) rfl).2.2.2.2⟩

@[simp] theorem noCross_nil (c sh : Bool) : RevB.noCross c sh [] = true := rfl

@[simp] theorem noCross_clearCam (c sh : Bool) (l : List RevB.BAction) :
    RevB.noCross c sh (RevB.BAction.clearCameraTimer :: l) = RevB.noCross false sh l := rfl

@[simp] theorem noCross_startCam (c sh : Bool) (l : List RevB.BAction) :
    RevB.noCross c sh (RevB.BAction.startCameraTimer :: l)
      = (!sh && RevB.noCross true sh l) := rfl

@[simp] theorem noCross_clearSh (c sh : Bool) (l : List RevB.BAction) :
    RevB.noCross c sh (RevB.BAction.clearShowcaseTimer :: l)
      = RevB.noCross c false l := rfl

@[simp] theorem noCross_startSh (c sh : Bool) (p : ℕ) (l : List RevB.BAction) :
    RevB.noCross c sh (RevB.BAction.startShowcaseTimer p :: l)
      = (!c && RevB.noCross c true l) := rfl

@[simp] theorem noCross_chatSpectate (c sh : Bool) (n : String) (l : List RevB.BAction) :
    RevB.noCross c sh (RevB.BAction.chatSpectate n :: l) = RevB.noCross c sh l := rfl

@[simp] theorem noCross_tpToPlayer (c sh : Bool) (n : String) (l : List RevB.BAction) :
    RevB.noCross c sh (RevB.BAction.tpToPlayer n :: l) = RevB.noCross c sh l := rfl

@[simp] theorem noCross_emitCameraCmd (c sh : Bool) (pos : RevB.Vec3)
    (l : List RevB.BAction) :
    RevB.noCross c sh (RevB.BAction.emitCameraCmd pos :: l) = RevB.noCross c sh l := rfl

@[simp] theorem noCross_tpLoc (c sh : Bool) (x y z yaw pitch : ℚ)
    (l : List RevB.BAction) :
    RevB.noCross c sh (RevB.BAction.tpLoc x y z yaw pitch :: l)
      = RevB.noCross c sh l := rfl

@[simp] theorem noCross_overlay (c sh : Bool) (t : String) (l : List RevB.BAction) :
    RevB.noCross c sh (RevB.BAction.overlay t :: l) = RevB.noCross c sh l := rfl

theorem noCross_append_timerFree (c sh : Bool) (l1 l2 : List RevB.BAction)
    (h : RevB.timerFree l1 = true) :
    RevB.noCross c sh (l1 ++ l2) = RevB.noCross c sh l2 := by
  induction l1 with
  | nil => rfl
  | cons a l ih => cases a <;> simp_all [RevB.timerFree]

theorem updateCamera_timerFree (pn : String) (ct : Option String)
    (lk : Option (Option RevB.Vec3)) (lct now : ℤ) :
    RevB.timerFree (RevB.updateCamera pn ct lk lct now).actions = true := by
  by_cases hm : ct = some pn
  · rcases lk with _ | (_ | pos) <;>
      (simp only [RevB.updateCamera, hm, ne_eq, eq_self_iff_true, not_true, if_false];
       split <;> rfl)
  · simp [RevB.updateCamera, hm, RevB.timerFree]

theorem noCross_startShowcaseTour (sh : Bool) (locations : List RevB.ShowcaseLocation)
    (d : ℕ) (s : RevB.BState) :
    RevB.noCross false sh (RevB.startShowcaseTour locations d s).2 = true := by
  by_cases hs : s.showcaseActive = true <;> by_cases hl : locations.length = 0 <;>
    simp [RevB.startShowcaseTour, RevB.goToShowcaseLocation, hs, hl]

theorem noCross_startContinuousFollow (spectateMode : Bool)
    (resolve : String → Option (Option RevB.Vec3)) (name : String) (now : ℤ)
    (s : RevB.BState) (c : Bool) :
    RevB.noCross c false (RevB.startContinuousFollow spectateMode resolve name now s).2
      = true := by
  by_cases hc : s.cameraTimer = true <;> by_cases hm : spectateMode = true <;>
    simp [RevB.startContinuousFollow, hc, hm, noCross_append_timerFree,
      updateCamera_timerFree]

theorem startContinuousFollowB_showcase (spectateMode : Bool)
    (resolve : String → Option (Option RevB.Vec3)) (name : String) (now : ℤ)
    (s : RevB.BState) :
    (RevB.startContinuousFollow spectateMode resolve name now s).1.showcaseActive
      = s.showcaseActive ∧
    (RevB.startContinuousFollow spectateMode resolve name now s).1.showcaseTimer
      = s.showcaseTimer ∧
    (RevB.startContinuousFollow spectateMode resolve name now s).1.currentTarget
      = s.currentTarget := by
  by_cases hc : s.cameraTimer = true <;> by_cases hm : spectateMode = true <;>
    simp [RevB.startContinuousFollow, hc, hm]

theorem showcaseTimerInv_tickBody (switchInterval : ℤ) (spectateMode : Bool)
    (locations : List RevB.ShowcaseLocation) (defaultDuration : ℕ)
    (resolve : String → Option (Option RevB.Vec3))
    (players : List String) (now : ℤ) (s0 : RevB.BState)
    (h : RevB.showcaseTimerInv s0) :
    RevB.showcaseTimerInv (RevB.tickBody switchInterval spectateMode locations
      defaultDuration resolve players now s0).1 := by
  by_cases hlen : players.length = 0
  · by_cases hg : (s0.currentTarget ≠ none || !s0.showcaseActive) = true
    · by_cases hcam : s0.cameraTimer = true <;>
        by_cases hact : s0.showcaseActive = true <;>
          simp_all [RevB.tickBody, RevB.startShowcaseTour, RevB.showcaseTimerInv]
    · simp_all [RevB.tickBody, RevB.showcaseTimerInv]
  · by_cases hact : s0.showcaseActive = true <;>
      by_cases ht : s0.showcaseTimer = true <;>
        (simp only [RevB.tickBody, hlen, hact, ht, if_false, if_true,
          RevB.stopShowcaseTour, Bool.false_eq_true, ite_false, ite_true];
         split <;>
           simp_all [RevB.showcaseTimerInv, startContinuousFollowB_showcase])

theorem startShowcaseTour_currentTarget (l : List RevB.ShowcaseLocation) (d : ℕ)
    (s : RevB.BState) :
    (RevB.startShowcaseTour l d s).1.currentTarget = s.currentTarget := by
  by_cases hs : s.showcaseActive = true <;> simp [RevB.startShowcaseTour, hs]

theorem mutexB_tickBody (switchInterval : ℤ) (spectateMode : Bool)
    (locations : List RevB.ShowcaseLocation) (defaultDuration : ℕ)
    (resolve : String → Option (Option RevB.Vec3))
    (players : List String) (now : ℤ) (s0 : RevB.BState) :
    RevB.mutexOkB (RevB.tickBody switchInterval spectateMode locations
      defaultDuration resolve players now s0).1 = true := by
  by_cases hlen : players.length = 0
  · by_cases hg : (s0.currentTarget ≠ none || !s0.showcaseActive) = true
    · by_cases hcam : s0.cameraTimer = true <;>
        simp_all [RevB.tickBody, RevB.mutexOkB, startShowcaseTour_currentTarget]
    · simp_all [RevB.tickBody, RevB.mutexOkB]
  · by_cases hact : s0.showcaseActive = true <;>
      by_cases ht : s0.showcaseTimer = true <;>
        (simp only [RevB.tickBody, hlen, hact, ht, if_false, if_true,
          RevB.stopShowcaseTour, Bool.false_eq_true, ite_false, ite_true];
         split <;>
           simp_all [RevB.mutexOkB, startContinuousFollowB_showcase])

theorem noCross_tickBody (switchInterval : ℤ) (spectateMode : Bool)
    (locations : List RevB.ShowcaseLocation) (defaultDuration : ℕ)
    (resolve : String → Option (Option RevB.Vec3))
    (players : List String) (now : ℤ) (s0 : RevB.BState)
    (h : RevB.showcaseTimerInv s0) :
    RevB.noCross s0.cameraTimer s0.showcaseTimer (RevB.tickBody switchInterval
      spectateMode locations defaultDuration resolve players now s0).2 = true := by
  by_cases hlen : players.length = 0
  · by_cases hg : (s0.currentTarget ≠ none || !s0.showcaseActive) = true
    · by_cases hcam : s0.cameraTimer = true <;>
        simp_all [RevB.tickBody, noCross_startShowcaseTour]
    · simp_all [RevB.tickBody]
  · by_cases hact : s0.showcaseActive = true <;>
      by_cases ht : s0.showcaseTimer = true <;>
        (simp only [RevB.tickBody, hlen, hact, ht, if_false, if_true,
          RevB.stopShowcaseTour, Bool.false_eq_true, ite_false, ite_true];
         split <;>
           simp_all [noCross_startContinuousFollow, RevB.showcaseTimerInv])

theorem showcaseTimerInv_tick (switchInterval : ℤ) (spectateMode : Bool)
    (botName : String) (locations : List RevB.ShowcaseLocation) (defaultDuration : ℕ)
    (resolve : String → Option (Option RevB.Vec3))
    (allPlayers : List String) (now : ℤ) (s : RevB.BState)
    (h : RevB.showcaseTimerInv s) :
    RevB.showcaseTimerInv (RevB.trackingTick switchInterval spectateMode botName
      locations defaultDuration resolve allPlayers now s).1 := by
  show RevB.showcaseTimerInv (RevB.tickBody switchInterval spectateMode locations
    defaultDuration resolve (SpectatorBot.filterPlayers botName allPlayers) now
    (if SpectatorBot.signatureOf (SpectatorBot.filterPlayers botName allPlayers)
        ≠ s.lastPlayerListSignature
     then { s with lastPlayerListSignature :=
        SpectatorBot.signatureOf (SpectatorBot.filterPlayers botName allPlayers) }
     else s)).1
  by_cases hsig : SpectatorBot.signatureOf (SpectatorBot.filterPlayers botName allPlayers)
      ≠ s.lastPlayerListSignature
  · rw [if_pos hsig]
    exact showcaseTimerInv_tickBody _ _ _ _ _ _ _ _ h
  · rw [if_neg hsig]
    exact showcaseTimerInv_tickBody _ _ _ _ _ _ _ _ h

theorem mutexB_tick (switchInterval : ℤ) (spectateMode : Bool)
    (botName : String) (locations : List RevB.ShowcaseLocation) (defaultDuration : ℕ)
    (resolve : String → Option (Option RevB.Vec3))
    (allPlayers : List String) (now : ℤ) (s : RevB.BState) :
    RevB.mutexOkB (RevB.trackingTick switchInterval spectateMode botName
      locations defaultDuration resolve allPlayers now s).1 = true := by
  show RevB.mutexOkB (RevB.tickBody switchInterval spectateMode locations
    defaultDuration resolve (SpectatorBot.filterPlayers botName allPlayers) now
    (if SpectatorBot.signatureOf (SpectatorBot.filterPlayers botName allPlayers)
        ≠ s.lastPlayerListSignature
     then { s with lastPlayerListSignature :=
        SpectatorBot.signatureOf (SpectatorBot.filterPlayers botName allPlayers) }
     else s)).1 = true
  by_cases hsig : SpectatorBot.signatureOf (SpectatorBot.filterPlayers botName allPlayers)
      ≠ s.lastPlayerListSignature
  · rw [if_pos hsig]
    exact mutexB_tickBody _ _ _ _ _ _ _ _
  · rw [if_neg hsig]
    exact mutexB_tickBody _ _ _ _ _ _ _ _

theorem noCross_tick (switchInterval : ℤ) (spectateMode : Bool)
    (botName : String) (locations : List RevB.ShowcaseLocation) (defaultDuration : ℕ)
    (resolve : String → Option (Option RevB.Vec3))
    (allPlayers : List String) (now : ℤ) (s : RevB.BState)
    (h : RevB.showcaseTimerInv s) :
    RevB.noCross s.cameraTimer s.showcaseTimer (RevB.trackingTick switchInterval
      spectateMode botName locations defaultDuration resolve allPlayers now s).2
      = true := by
  show RevB.noCross s.cameraTimer s.showcaseTimer (RevB.tickBody switchInterval
    spectateMode locations defaultDuration resolve
    (SpectatorBot.filterPlayers botName allPlayers) now
    (if SpectatorBot.signatureOf (SpectatorBot.filterPlayers botName allPlayers)
        ≠ s.lastPlayerListSignature
     then { s with lastPlayerListSignature :=
        SpectatorBot.signatureOf (SpectatorBot.filterPlayers botName allPlayers) }
     else s)).2 = true
  by_cases hsig : SpectatorBot.signatureOf (SpectatorBot.filterPlayers botName allPlayers)
      ≠ s.lastPlayerListSignature
  · rw [if_pos hsig]
    exact noCross_tickBody switchInterval spectateMode locations defaultDuration
      resolve (SpectatorBot.filterPlayers botName allPlayers) now
      { s with lastPlayerListSignature :=
          SpectatorBot.signatureOf (SpectatorBot.filterPlayers botName allPlayers) } h
  · rw [if_neg hsig]
    exact noCross_tickBody _ _ _ _ _ _ _ _ h

theorem mutexB_run (switchInterval : ℤ) (spectateMode : Bool)
    (botName : String) (locations : List RevB.ShowcaseLocation) (defaultDuration : ℕ)
    (resolve : String → Option (Option RevB.Vec3))
    (obs : List (List String × ℤ)) (s : RevB.BState)
    (h : RevB.mutexOkB s = true) :
    RevB.mutexOkB (RevB.runTicksB switchInterval spectateMode botName locations
      defaultDuration resolve obs s).1 = true := by
  induction obs generalizing s with
  | nil => exact h
  | cons o rest ih =>
    obtain ⟨ps, t⟩ := o
    exact ih _ (mutexB_tick switchInterval spectateMode botName locations
      defaultDuration resolve ps t s)

theorem showcaseTimerInv_run (switchInterval : ℤ) (spectateMode : Bool)
    (botName : String) (locations : List RevB.ShowcaseLocation) (defaultDuration : ℕ)
    (resolve : String → Option (Option RevB.Vec3))
    (obs : List (List String × ℤ)) (s : RevB.BState)
    (h : RevB.showcaseTimerInv s) :
    RevB.showcaseTimerInv (RevB.runTicksB switchInterval spectateMode botName
      locations defaultDuration resolve obs s).1 := by
  induction obs generalizing s with
  | nil => exact h
  | cons o rest ih =>
    obtain ⟨ps, t⟩ := o
    exact ih _ (showcaseTimerInv_tick switchInterval spectateMode botName locations
      defaultDuration resolve ps t s h)

theorem runOkB_true (switchInterval : ℤ) (spectateMode : Bool)
    (botName : String) (locations : List RevB.ShowcaseLocation) (defaultDuration : ℕ)
    (resolve : String → Option (Option RevB.Vec3))
    (obs : List (List String × ℤ)) (s : RevB.BState)
    (h : RevB.showcaseTimerInv s) :
    RevB.runOkB switchInterval spectateMode botName locations defaultDuration
      resolve obs s = true := by
  induction obs generalizing s with
  | nil => rfl
  | cons o rest ih =>
    obtain ⟨ps, t⟩ := o
    have h1 := noCross_tick switchInterval spectateMode botName locations
      defaultDuration resolve ps t s h
    have h2 := ih _ (showcaseTimerInv_tick switchInterval spectateMode botName
      locations defaultDuration resolve ps t s h)
    show (RevB.noCross s.cameraTimer s.showcaseTimer
        (RevB.trackingTick switchInterval spectateMode botName locations
          defaultDuration resolve ps t s).2 &&
      RevB.runOkB switchInterval spectateMode botName locations defaultDuration
        resolve rest
        (RevB.trackingTick switchInterval spectateMode botName locations
          defaultDuration resolve ps t s).1) = true
    rw [h1, h2]
    rfl

theorem showcaseBases_currentTarget (l : List SLocation) (s : SState) :
    (showcaseBases l s).1.currentTarget = s.currentTarget := by
  by_cases hs : s.showcaseActive = true <;> by_cases hl : l.length = 0 <;>
    simp [showcaseBases, hs, hl]

theorem startContinuousFollowS_showcaseActive (us : Bool)
    (lookup : String → Option PlayerEnv) (b bh : ℚ) (n : String) (s : SState) :
    (startContinuousFollow us lookup b bh n s).1.showcaseActive
      = s.showcaseActive := by
  by_cases hf : s.followTimer = true <;> by_cases hu : us = true <;>
    simp [startContinuousFollow, hf, hu]

theorem mutexS_tick (si : ℤ) (us : Bool) (bn : String) (locs : List SLocation)
    (lookup : String → Option PlayerEnv) (b bh : ℚ) (ap : List String) (now : ℤ)
    (s : SState) :
    mutexOkS (trackingTick si us bn locs lookup b bh ap now s).1 = true := by
  by_cases hsig : signatureOf (filterPlayers bn ap) ≠ s.lastPlayerListSignature <;>
    by_cases hlen : (filterPlayers bn ap).length = 0 <;>
      by_cases hct : s.currentTarget = none <;>
        by_cases hsh : s.showcaseActive = true <;>
          (simp only [trackingTick, hsig, hlen, hct, hsh, if_true, if_false,
            ite_true, ite_false, not_true, not_false_iff, ne_eq];
           split_ifs <;>
             simp_all [mutexOkS, showcaseBases_currentTarget,
               startContinuousFollowS_showcaseActive])

theorem mutexS_run (si : ℤ) (us : Bool) (bn : String) (locs : List SLocation)
    (lookup : String → Option PlayerEnv) (b bh : ℚ)
    (obs : List (List String × ℤ)) (s : SState) (h : mutexOkS s = true) :
    mutexOkS (runTicks si us bn locs lookup b bh obs s).1 = true := by
  induction obs generalizing s with
  | nil => exact h
  | cons o rest ih =>
    obtain ⟨ps, t⟩ := o
    exact ih _ (mutexS_tick si us bn locs lookup b bh ps t s)

@[simp] theorem noCrossS_nil (f : Bool) : noCrossS f [] = true := rfl

@[simp] theorem noCrossS_clearFollow (f : Bool) (l : List SAction) :
    noCrossS f (SAction.clearFollowTimer :: l) = noCrossS false l := rfl

@[simp] theorem noCrossS_startFollow (f : Bool) (l : List SAction) :
    noCrossS f (SAction.startFollowTimer :: l) = noCrossS true l := rfl

@[simp] theorem noCrossS_tpShowcase (f : Bool) (x y z : ℚ) (l : List SAction) :
    noCrossS f (SAction.tpShowcase x y z :: l) = (!f && noCrossS f l) := rfl

@[simp] theorem noCrossS_chatSpectate (f : Bool) (n : String) (l : List SAction) :
    noCrossS f (SAction.chatSpectate n :: l) = noCrossS f l := rfl

@[simp] theorem noCrossS_tpBehind (f : Bool) (n : String) (h d : ℚ)
    (l : List SAction) :
    noCrossS f (SAction.tpBehind n h d :: l) = noCrossS f l := rfl

theorem noCrossS_updatePosition_append (f : Bool) (pn : String)
    (ct : Option String) (lk : Option PlayerEnv) (b bh : ℚ) (lct : ℤ)
    (rest : List SAction) :
    noCrossS f ((updatePosition pn ct lk b bh lct).actions ++ rest)
      = noCrossS f rest := by
  by_cases hm : ct ≠ some pn
  · simp [updatePosition, hm]
  · rcases lk with _ | p <;> simp [updatePosition, hm]

theorem noCrossS_showcaseBases (l : List SLocation) (s : SState) :
    noCrossS false (showcaseBases l s).2 = true := by
  by_cases hs : s.showcaseActive = true <;> by_cases hl : l.length = 0 <;>
    simp [showcaseBases, hs, hl]

theorem noCrossS_startContinuousFollow (us : Bool)
    (lookup : String → Option PlayerEnv) (b bh : ℚ) (n : String) (s : SState)
    (f : Bool) :
    noCrossS f (startContinuousFollow us lookup b bh n s).2 = true := by
  by_cases hf : s.followTimer = true <;> by_cases hu : us = true <;>
    simp [startContinuousFollow, hf, hu, noCrossS_updatePosition_append]

theorem startContinuousFollowS_followTimer (us : Bool)
    (lookup : String → Option PlayerEnv) (b bh : ℚ) (n : String) (s : SState) :
    (startContinuousFollow us lookup b bh n s).1.followTimer
      = (if us = true then false else true) := by
  by_cases hf : s.followTimer = true <;> by_cases hu : us = true <;>
    simp [startContinuousFollow, hf, hu]

theorem showcaseBases_followTimer (l : List SLocation) (s : SState) :
    (showcaseBases l s).1.followTimer = s.followTimer := by
  by_cases hs : s.showcaseActive = true <;> by_cases hl : l.length = 0 <;>
    simp [showcaseBases, hs, hl]

theorem followTimerInvS_tick (si : ℤ) (us : Bool) (bn : String)
    (locs : List SLocation) (lookup : String → Option PlayerEnv) (b bh : ℚ)
    (ap : List String) (now : ℤ) (s : SState) (h : followTimerInvS s) :
    followTimerInvS (trackingTick si us bn locs lookup b bh ap now s).1 := by
  by_cases hsig : signatureOf (filterPlayers bn ap) ≠ s.lastPlayerListSignature <;>
    by_cases hlen : (filterPlayers bn ap).length = 0 <;>
      by_cases hct : s.currentTarget = none <;>
        by_cases hsh : s.showcaseActive = true <;>
          (simp only [trackingTick, hsig, hlen, hct, hsh, if_true, if_false,
            ite_true, ite_false, not_true, not_false_iff, ne_eq];
           split_ifs <;>
             simp_all [followTimerInvS, showcaseBases_currentTarget,
               startContinuousFollowS_followTimer, startContinuousFollow_currentTarget,
               showcaseBases_followTimer])

theorem noCrossS_tick (si : ℤ) (us : Bool) (bn : String)
    (locs : List SLocation) (lookup : String → Option PlayerEnv) (b bh : ℚ)
    (ap : List String) (now : ℤ) (s : SState) (h : followTimerInvS s) :
    noCrossS s.followTimer (trackingTick si us bn locs lookup b bh ap now s).2
      = true := by
  by_cases hsig : signatureOf (filterPlayers bn ap) ≠ s.lastPlayerListSignature <;>
    by_cases hlen : (filterPlayers bn ap).length = 0 <;>
      by_cases hct : s.currentTarget = none <;>
        by_cases hsh : s.showcaseActive = true <;>
          (simp only [trackingTick, hsig, hlen, hct, hsh, if_true, if_false,
            ite_true, ite_false, not_true, not_false_iff, ne_eq];
           split_ifs <;>
             simp_all [followTimerInvS, noCrossS_showcaseBases,
               noCrossS_startContinuousFollow])

theorem runOkS_true (si : ℤ) (us : Bool) (bn : String) (locs : List SLocation)
    (lookup : String → Option PlayerEnv) (b bh : ℚ)
    (obs : List (List String × ℤ)) (s : SState) (h : followTimerInvS s) :
    runOkS si us bn locs lookup b bh obs s = true := by
  induction obs generalizing s with
  | nil => rfl
  | cons o rest ih =>
    obtain ⟨ps, t⟩ := o
    have h1 := noCrossS_tick si us bn locs lookup b bh ps t s h
    have h2 := ih _ (followTimerInvS_tick si us bn locs lookup b bh ps t s h)
    show (noCrossS s.followTimer
        (trackingTick si us bn locs lookup b bh ps t s).2 &&
      runOkS si us bn locs lookup b bh rest
        (trackingTick si us bn locs lookup b bh ps t s).1) = true
    rw [h1, h2]
    rfl

/-- C2: over every sequence of subject-list observations processed from
the clean initial state, the tracking state never has following mode and
showcase mode active at the same time (showcase active implies the
current subject reference is null) — in the part_002 revision AND in the
current revision; in the part_002 revision (the one with both a camera
timer and a showcase timer) every tick's effect trace respects the timer
discipline — the timer of the mode being exited is cancelled before the
other mode's timer is started (`noCross`, threaded from each tick's
pre-state timer liveness by `runOkB`) — and in the current revision the
follow interval is always cleared before showcase mode is entered
(`noCrossS` via `runOkS`; that revision has no showcase timer to
cancel in the other direction). -/
theorem c2_mode_mutual_exclusion
    (switchInterval : ℤ) (spectateMode : Bool) (botName : String)
    (locations : List RevB.ShowcaseLocation) (defaultDuration : ℕ)
    (resolve : String → Option (Option RevB.Vec3))
    (obs : List (List String × ℤ)) (start : ℤ)
    (si : ℤ) (us : Bool) (bn : String) (locs : List SLocation)
    (lookup : String → Option PlayerEnv) (b bh : ℚ)
    (obsS : List (List String × ℤ)) (startS : ℤ) :
    RevB.mutexOkB (RevB.runTicksB switchInterval spectateMode botName locations
      defaultDuration resolve obs (RevB.initialBState start)).1 = true ∧
    RevB.runOkB switchInterval spectateMode botName locations defaultDuration
      resolve obs (RevB.initialBState start) = true ∧
    mutexOkS (runTicks si us bn locs lookup b bh obsS (initialSState startS)).1
      = true ∧
    runOkS si us bn locs lookup b bh obsS (initialSState startS) = true :=
  ⟨mutexB_run switchInterval spectateMode botName locations defaultDuration
      resolve obs (RevB.initialBState start) rfl,
   runOkB_true switchInterval spectateMode botName locations defaultDuration
      resolve obs (RevB.initialBState start) (fun h => by simp [RevB.initialBState] at h),
   mutexS_run si us bn locs lookup b bh obsS (initialSState startS) rfl,
   runOkS_true si us bn locs lookup b bh obsS (initialSState startS)
     (fun h => by simp [initialSState] at h)⟩
